import Mathlib

/-!
Verification of the granted-rpc router core (Go sources `error.go`,
`router.go`, `transport.go`).

Shallow embedding notes.

The router stores handlers, input prototypes and output prototypes as
`any` values in three Go maps and recovers the concrete types at dispatch
time through reflection.  The embedding keeps that structure but stores
the handler at its recovered type: definitions are parameterised by a
type `Val` of typed protobuf message values and a type `Ctx` of contexts,
a handler is `Ctx → Val → Except String Val` (Go `func(ctx, *In) (*Out,
error)`, the `String` being the Go error message), and a Go map is a
finitely updated function `String → Option α` (`none` is the Go
`ok == false` lookup result).

The two serialization layers used by `HandleMessage` are external
collaborators, not code of this repository: `encoding/json`
(`json.Unmarshal` of the input string into `routerMessage`,
`json.Marshal` of the outbound `routerMessage`) and `protojson`
(`protojson.Unmarshal` of the request payload into the input prototype,
`protojson.Marshal` of the handler output).  They are modelled as an
abstract `Wire` record of four functions; theorems hypothesise the
behaviour of these functions at the relevant points, and concrete
instances (`demoWire`) mirror the documented behaviour of the Go
libraries at the concrete inputs used by witnesses and counterexamples.
`json.RawMessage` fields with `omitempty` are `Option String` (`none` is
the absent field / nil slice).
-/

namespace GrantedRPC

/-- RPCError holds details about an error occurrence (error.go). -/
structure RPCError where
  message : String
deriving Repr, DecidableEq

/-- ErrorPayload describes a JSON error response (error.go).  It is
defined by the source but never constructed on the dispatch path. -/
structure ErrorPayload where
  error : RPCError
deriving Repr, DecidableEq

/-- The routerMessage wire envelope (router.go): a procedure name plus
optional raw request and response payloads (`json.RawMessage` with
`omitempty`, so `none` is the absent field). -/
structure RouterMessage where
  procedure : String
  request : Option String
  response : Option String
deriving Repr, DecidableEq

/-- The Router (router.go): three maps from fully-qualified operation
name to handler function, input prototype and output prototype.  Go maps
become finitely updated functions into `Option`. -/
structure Router (Ctx Val : Type) where
  operationFuncs : String → Option (Ctx → Val → Except String Val)
  inputTypes : String → Option Val
  outputTypes : String → Option Val

/-- NewRouter (router.go): all three maps start empty. -/
def Router.NewRouter (Ctx Val : Type) : Router Ctx Val :=
  { operationFuncs := fun _ => none
    inputTypes := fun _ => none
    outputTypes := fun _ => none }

/-- Register (router.go): store handler, input type and output type under
the operation name, overwriting whatever was there. -/
def Router.Register {Ctx Val : Type} (r : Router Ctx Val) (operation : String)
    (inputType : Val) (outputType : Val)
    (handler : Ctx → Val → Except String Val) : Router Ctx Val :=
  { operationFuncs := fun k => if k = operation then some handler else r.operationFuncs k
    inputTypes := fun k => if k = operation then some inputType else r.inputTypes k
    outputTypes := fun k => if k = operation then some outputType else r.outputTypes k }

/-- The external serialization collaborators used by HandleMessage:
`unmarshalMessage` is `json.Unmarshal` of the input string into a
`routerMessage`; `marshalMessage` is `json.Marshal` of the outbound
`routerMessage`; `protoUnmarshal` is `protojson.Unmarshal` of the raw
request payload (absent field = `none`) into a fresh value of the given
input prototype; `protoMarshal` is `protojson.Marshal` of the handler
output.  Errors carry the Go error message. -/
structure Wire (Val : Type) where
  unmarshalMessage : String → Except String RouterMessage
  marshalMessage : RouterMessage → Except String String
  protoUnmarshal : Option String → Val → Except String Val
  protoMarshal : Val → Except String String

/-- The distinct failure return sites of HandleMessage (router.go), one
constructor per `return "", err` site, carrying what the site's
`fmt.Errorf` wraps.  `handlerErr` is the handler's own error, returned
as-is by the code. -/
inductive RouterError where
  | unmarshalMessageErr (underlying : String)
  | noHandler (operation : String)
  | noInputType (operation : String)
  | unmarshalRequestErr (underlying : String)
  | handlerErr (underlying : String)
  | marshalResponseErr (underlying : String)
  | marshalResponseMessageErr (underlying : String)
deriving Repr, DecidableEq

/-- The Go `Error()` message of each failure, following the `fmt.Errorf`
format string at the corresponding return site of HandleMessage.  The
handler's error is returned unwrapped, so its message passes through. -/
def RouterError.message : RouterError → String
  | .unmarshalMessageErr e => "failed to unmarshal message: " ++ e
  | .noHandler op => "no handler found for operation " ++ op
  | .noInputType op => "no input type found for operation " ++ op
  | .unmarshalRequestErr e => "failed to unmarshal request: " ++ e
  | .handlerErr e => e
  | .marshalResponseErr e => "failed to marshal response: " ++ e
  | .marshalResponseMessageErr e => "failed to marshal response message: " ++ e

/-- HandleMessage (router.go), step for step: unmarshal the envelope,
look up the handler, look up the input type, unmarshal the request into
a fresh value of the input type, call the handler, check its error
result, marshal the response payload, build the outbound envelope with
the same procedure and the response bytes (request absent), marshal it
and return the string. -/
def Router.HandleMessage {Ctx Val : Type} (w : Wire Val) (r : Router Ctx Val)
    (ctx : Ctx) (input : String) : Except RouterError String :=
  match w.unmarshalMessage input with
  | .error e => .error (.unmarshalMessageErr e)
  | .ok msg =>
    match r.operationFuncs msg.procedure with
    | none => .error (.noHandler msg.procedure)
    | some fn =>
      match r.inputTypes msg.procedure with
      | none => .error (.noInputType msg.procedure)
      | some inputType =>
        match w.protoUnmarshal msg.request inputType with
        | .error e => .error (.unmarshalRequestErr e)
        | .ok inputValue =>
          match fn ctx inputValue with
          | .error e => .error (.handlerErr e)
          | .ok response =>
            match w.protoMarshal response with
            | .error e => .error (.marshalResponseErr e)
            | .ok responseBytes =>
              match w.marshalMessage
                { procedure := msg.procedure
                  request := none
                  response := some responseBytes } with
              | .error e => .error (.marshalResponseMessageErr e)
              | .ok out => .ok out

/-- HandleMessage with the router state threaded explicitly through and
returned, to state frame conditions: the Go method only reads the three
maps, so every branch hands the state back unchanged. -/
def Router.HandleMessageS {Ctx Val : Type} (w : Wire Val) (r : Router Ctx Val)
    (ctx : Ctx) (input : String) : Except RouterError String × Router Ctx Val :=
  match w.unmarshalMessage input with
  | .error e => (.error (.unmarshalMessageErr e), r)
  | .ok msg =>
    match r.operationFuncs msg.procedure with
    | none => (.error (.noHandler msg.procedure), r)
    | some fn =>
      match r.inputTypes msg.procedure with
      | none => (.error (.noInputType msg.procedure), r)
      | some inputType =>
        match w.protoUnmarshal msg.request inputType with
        | .error e => (.error (.unmarshalRequestErr e), r)
        | .ok inputValue =>
          match fn ctx inputValue with
          | .error e => (.error (.handlerErr e), r)
          | .ok response =>
            match w.protoMarshal response with
            | .error e => (.error (.marshalResponseErr e), r)
            | .ok responseBytes =>
              match w.marshalMessage
                { procedure := msg.procedure
                  request := none
                  response := some responseBytes } with
              | .error e => (.error (.marshalResponseMessageErr e), r)
              | .ok out => (.ok out, r)

/-- Executing a batch of HandleMessage calls one after another against
the shared router state, threading the state through: the sequential
model of any interleaving of atomic concurrent calls. -/
def Router.runCalls {Ctx Val : Type} (w : Wire Val) (ctx : Ctx) :
    Router Ctx Val → List String → Router Ctx Val × List (Except RouterError String)
  | r, [] => (r, [])
  | r, input :: rest =>
    let p := Router.HandleMessageS w r ctx input
    let q := Router.runCalls w ctx p.2 rest
    (q.1, p.1 :: q.2)

/-! Concrete instances for witnesses and counterexamples.  `Val` is
`String` (a typed message value rendered by the field it carries) and
`Ctx` is `Unit`.  `demoWire` mirrors the documented behaviour of
`encoding/json` and `protojson` at exactly the inputs the witnesses use;
JSON braces are written with `\x7b` and `\x7d` escapes. -/

/-- Model of Go `json.Marshal` on an outbound `routerMessage`: a JSON
object with the `procedure` field and the raw payload fields, each
dropped when `nil` (`omitempty`), assuming the procedure name needs no
JSON string escaping (true of every name used here). -/
def marshalRouterMessage (m : RouterMessage) : String :=
  "\x7b\"procedure\":\"" ++ m.procedure ++ "\"" ++
    (match m.request with
     | none => ""
     | some r => ",\"request\":" ++ r) ++
    (match m.response with
     | none => ""
     | some r => ",\"response\":" ++ r) ++ "\x7d"

/-- Inbound envelope for the echo demo scenario. -/
def demoEchoInput : String :=
  "\x7b\"procedure\":\"demo.Echo/Say\",\"request\":\x7b\"greeting\":\"hello\"\x7d\x7d"

/-- Inbound envelope whose request payload is not a valid message. -/
def demoBadRequestInput : String :=
  "\x7b\"procedure\":\"demo.Echo/Say\",\"request\":\"bad\"\x7d"

/-- Inbound envelope naming an unregistered procedure. -/
def demoMissingInput : String :=
  "\x7b\"procedure\":\"svc/Missing\",\"request\":\x7b\x7d\x7d"

/-- Inbound envelope for a registered procedure with no request field. -/
def demoNoRequestInput : String :=
  "\x7b\"procedure\":\"demo.Echo/Say\"\x7d"

/-- A concrete wire model, faithful to Go `encoding/json` and `protojson`
at the inputs used below: `json.Unmarshal` rejects the string
`not json` (its first byte starts a `null` literal that fails), accepts
the empty object with all fields zero-valued, and extracts the envelope
fields of the demo inputs; `protojson.Unmarshal` fails on an absent
(`nil`) payload because empty input is not valid JSON, parses the demo
greeting object, and rejects other payloads; `protojson.Marshal` of an
echo reply value produces the reply object. -/
def demoWire : Wire String :=
  { unmarshalMessage := fun s =>
      if s = "not json" then
        .error ("invalid character o in literal null (expecting u)")
      else if s = "\x7b\x7d" then
        .ok { procedure := "", request := none, response := none }
      else if s = demoEchoInput then
        .ok { procedure := "demo.Echo/Say"
              request := some ("\x7b\"greeting\":\"hello\"\x7d")
              response := none }
      else if s = demoBadRequestInput then
        .ok { procedure := "demo.Echo/Say"
              request := some ("\"bad\"")
              response := none }
      else if s = demoMissingInput then
        .ok { procedure := "svc/Missing"
              request := some ("\x7b\x7d")
              response := none }
      else if s = demoNoRequestInput then
        .ok { procedure := "demo.Echo/Say", request := none, response := none }
      else
        .error ("input not modelled")
    marshalMessage := fun m => .ok (marshalRouterMessage m)
    protoUnmarshal := fun req _proto =>
      match req with
      | none => .error ("unexpected EOF")
      | some b =>
        if b = "\x7b\"greeting\":\"hello\"\x7d" then .ok ("hello")
        else .error ("syntax error: cannot parse " ++ b)
    protoMarshal := fun v => .ok ("\x7b\"reply\":\"" ++ v ++ "\"\x7d") }

/-- The echo handler of the demo scenario: reply with the greeting. -/
def echoHandler : Unit → String → Except String String := fun _ x => .ok x

/-- A handler that always fails with the message boom. -/
def boomHandler : Unit → String → Except String String := fun _ _ => .error ("boom")

/-- Demo router with the echo operation registered. -/
def demoRouter : Router Unit String :=
  (Router.NewRouter Unit String).Register ("demo.Echo/Say") ("SayRequest")
    ("SayResponse") echoHandler

/-- Demo router whose only handler fails with boom. -/
def demoBoomRouter : Router Unit String :=
  (Router.NewRouter Unit String).Register ("demo.Echo/Say") ("SayRequest")
    ("SayResponse") boomHandler

/-! Helper lemmas shared by the claim theorems. -/

/-- The state-threaded dispatch returns the router unchanged on every
branch. -/
theorem handleMessageS_state {Ctx Val : Type} (w : Wire Val) (r : Router Ctx Val)
    (ctx : Ctx) (input : String) :
    (Router.HandleMessageS w r ctx input).2 = r := by
  unfold Router.HandleMessageS
  repeat' split
  all_goals rfl

/-- The state-threaded dispatch computes the same result as
HandleMessage. -/
theorem handleMessageS_fst {Ctx Val : Type} (w : Wire Val) (r : Router Ctx Val)
    (ctx : Ctx) (input : String) :
    (Router.HandleMessageS w r ctx input).1 = Router.HandleMessage w r ctx input := by
  unfold Router.HandleMessageS Router.HandleMessage
  repeat' split
  all_goals rfl

/-! Claim theorems. -/

/-- C1: after registering a handler under an operation name, dispatching
an envelope that names that operation and whose request payload decodes
to `x` runs the handler; when the handler succeeds with `y`, the result
is the serialization of an outbound envelope carrying the same procedure
name, the encoding of `y` as the response payload, and no request
field. -/
theorem dispatch_success_builds_response_envelope {Ctx Val : Type}
    (w : Wire Val) (r : Router Ctx Val) (ctx : Ctx) (op : String)
    (inT outT : Val) (h : Ctx → Val → Except String Val) (s : String)
    (req resp : Option String) (x y : Val) (yb out : String)
    (hparse : w.unmarshalMessage s =
      .ok { procedure := op, request := req, response := resp })
    (hdec : w.protoUnmarshal req inT = .ok x)
    (hrun : h ctx x = .ok y)
    (henc : w.protoMarshal y = .ok yb)
    (hout : w.marshalMessage
      { procedure := op, request := none, response := some yb } = .ok out) :
    Router.HandleMessage w (r.Register op inT outT h) ctx s = .ok out := by
  simp [Router.HandleMessage, Router.Register, hparse, hdec, hrun, henc, hout]

/-- C1 witness: the echo demo scenario evaluated concretely. -/
theorem dispatch_success_builds_response_envelope_witness :
    Router.HandleMessage demoWire demoRouter () demoEchoInput =
      .ok ("\x7b\"procedure\":\"demo.Echo/Say\",\"response\":\x7b\"reply\":\"hello\"\x7d\x7d") :=
  dispatch_success_builds_response_envelope demoWire (Router.NewRouter Unit String)
    () ("demo.Echo/Say") ("SayRequest") ("SayResponse") echoHandler demoEchoInput
    (some ("\x7b\"greeting\":\"hello\"\x7d")) none ("hello") ("hello")
    ("\x7b\"reply\":\"hello\"\x7d")
    ("\x7b\"procedure\":\"demo.Echo/Say\",\"response\":\x7b\"reply\":\"hello\"\x7d\x7d")
    rfl rfl rfl rfl rfl

/-- Discriminator for the failure kind the spec calls MalformedEnvelope:
the envelope-unmarshal return site of HandleMessage. -/
def isMalformedEnvelopeFailure : Except RouterError String → Bool
  | .error (.unmarshalMessageErr _) => true
  | _ => false

/-- C2 counterexample: on the empty JSON object the envelope unmarshal
succeeds with a zero-valued message, so HandleMessage on a fresh router
fails at the registry lookup with the no-handler error naming the empty
procedure, not with the envelope-unmarshal (MalformedEnvelope) error the
claim requires. -/
theorem empty_procedure_is_not_malformed_envelope :
    Router.HandleMessage demoWire (Router.NewRouter Unit String) () ("\x7b\x7d") =
      .error (.noHandler ("")) ∧
    isMalformedEnvelopeFailure
      (Router.HandleMessage demoWire (Router.NewRouter Unit String) () ("\x7b\x7d")) =
      false := by
  exact ⟨rfl, rfl⟩

/-- C2 amended: when the input string fails to unmarshal as an envelope,
HandleMessage fails with the envelope-unmarshal (MalformedEnvelope)
error and no handler is invoked; when the input unmarshals to an
envelope with an empty procedure and nothing is registered under the
empty name, HandleMessage instead fails with the no-handler
(UnknownOperation) error naming the empty procedure, again without
invoking any handler. -/
theorem malformed_and_empty_procedure_failures {Ctx Val : Type}
    (w : Wire Val) (r : Router Ctx Val) (ctx : Ctx) (s : String) :
    (∀ e, w.unmarshalMessage s = .error e →
      Router.HandleMessage w r ctx s = .error (.unmarshalMessageErr e)) ∧
    (∀ msg, w.unmarshalMessage s = .ok msg → msg.procedure = "" →
      r.operationFuncs ("") = none →
      Router.HandleMessage w r ctx s = .error (.noHandler (""))) := by
  constructor
  · intro e he
    simp [Router.HandleMessage, he]
  · intro msg hmsg hproc habs
    simp [Router.HandleMessage, hmsg, hproc, habs]

/-- C2 witness: both branches of the amended claim evaluated on the
concrete inputs of the spec scenario. -/
theorem malformed_and_empty_procedure_failures_witness :
    Router.HandleMessage demoWire (Router.NewRouter Unit String) () ("not json") =
      .error (.unmarshalMessageErr ("invalid character o in literal null (expecting u)")) ∧
    Router.HandleMessage demoWire (Router.NewRouter Unit String) () ("\x7b\x7d") =
      .error (.noHandler ("")) :=
  ⟨(malformed_and_empty_procedure_failures demoWire (Router.NewRouter Unit String)
      () ("not json")).1
      ("invalid character o in literal null (expecting u)") rfl,
   (malformed_and_empty_procedure_failures demoWire (Router.NewRouter Unit String)
      () ("\x7b\x7d")).2
      { procedure := "", request := none, response := none } rfl rfl rfl⟩

/-- C3: when the registered handler fails, HandleMessage returns the
handler-failure error carrying the handler's message verbatim, and the
result does not depend on the response encoder (the wire's protoMarshal
is arbitrary here), so no response payload is produced. -/
theorem handler_failure_propagates {Ctx Val : Type} (w : Wire Val)
    (r : Router Ctx Val) (ctx : Ctx) (s op : String) (req resp : Option String)
    (inT : Val) (h : Ctx → Val → Except String Val) (x : Val) (emsg : String)
    (hparse : w.unmarshalMessage s =
      .ok { procedure := op, request := req, response := resp })
    (hfn : r.operationFuncs op = some h)
    (hin : r.inputTypes op = some inT)
    (hdec : w.protoUnmarshal req inT = .ok x)
    (hrun : h ctx x = .error emsg) :
    Router.HandleMessage w r ctx s = .error (.handlerErr emsg) ∧
    (RouterError.handlerErr emsg).message = emsg := by
  constructor
  · simp [Router.HandleMessage, hparse, hfn, hin, hdec, hrun]
  · rfl

/-- C3 witness: a handler failing with boom, evaluated concretely. -/
theorem handler_failure_propagates_witness :
    Router.HandleMessage demoWire demoBoomRouter () demoEchoInput =
      .error (.handlerErr ("boom")) ∧
    (RouterError.handlerErr ("boom")).message = "boom" :=
  handler_failure_propagates demoWire demoBoomRouter () demoEchoInput
    ("demo.Echo/Say") (some ("\x7b\"greeting\":\"hello\"\x7d")) none
    ("SayRequest") boomHandler ("hello") ("boom")
    rfl rfl rfl rfl rfl

/-- C4: when the parsed envelope names a procedure with no registered
handler, HandleMessage fails with the no-handler (UnknownOperation)
error, whose Go message names the offending procedure. -/
theorem unknown_operation_failure {Ctx Val : Type} (w : Wire Val)
    (r : Router Ctx Val) (ctx : Ctx) (s : String) (msg : RouterMessage)
    (hparse : w.unmarshalMessage s = .ok msg)
    (habs : r.operationFuncs msg.procedure = none) :
    Router.HandleMessage w r ctx s = .error (.noHandler msg.procedure) ∧
    (RouterError.noHandler msg.procedure).message =
      "no handler found for operation " ++ msg.procedure := by
  constructor
  · simp [Router.HandleMessage, hparse, habs]
  · rfl

/-- C4 witness: dispatching the unregistered procedure of the spec
scenario against the demo router. -/
theorem unknown_operation_failure_witness :
    Router.HandleMessage demoWire demoRouter () demoMissingInput =
      .error (.noHandler ("svc/Missing")) ∧
    (RouterError.noHandler ("svc/Missing")).message =
      "no handler found for operation " ++ "svc/Missing" :=
  unknown_operation_failure demoWire demoRouter () demoMissingInput
    { procedure := "svc/Missing", request := some ("\x7b\x7d"), response := none }
    rfl rfl

/-- C5: when the request payload of a registered procedure fails to
decode into the registered input type, HandleMessage fails with the
request-unmarshal (RequestDecodeError) error wrapping the underlying
decode message, and the result does not depend on the handler (the
looked-up handler is arbitrary here), so the handler is not invoked. -/
theorem request_decode_failure {Ctx Val : Type} (w : Wire Val)
    (r : Router Ctx Val) (ctx : Ctx) (s op : String) (req resp : Option String)
    (inT : Val) (h : Ctx → Val → Except String Val) (e : String)
    (hparse : w.unmarshalMessage s =
      .ok { procedure := op, request := req, response := resp })
    (hfn : r.operationFuncs op = some h)
    (hin : r.inputTypes op = some inT)
    (hdec : w.protoUnmarshal req inT = .error e) :
    Router.HandleMessage w r ctx s = .error (.unmarshalRequestErr e) ∧
    (RouterError.unmarshalRequestErr e).message =
      "failed to unmarshal request: " ++ e := by
  constructor
  · simp [Router.HandleMessage, hparse, hfn, hin, hdec]
  · rfl

/-- C5 witness: a request payload that is not a valid message for the
registered echo operation. -/
theorem request_decode_failure_witness :
    Router.HandleMessage demoWire demoRouter () demoBadRequestInput =
      .error (.unmarshalRequestErr ("syntax error: cannot parse \"bad\"")) ∧
    (RouterError.unmarshalRequestErr ("syntax error: cannot parse \"bad\"")).message =
      "failed to unmarshal request: " ++ "syntax error: cannot parse \"bad\"" :=
  request_decode_failure demoWire demoRouter () demoBadRequestInput
    ("demo.Echo/Say") (some ("\"bad\"")) none ("SayRequest") echoHandler
    ("syntax error: cannot parse \"bad\"") rfl rfl rfl rfl

/-- C6: Register deterministically overwrites: after registering twice
under the same name, all three maps hold exactly the second descriptor
under that name, and every other name is untouched, so lookup yields at
most one descriptor, the most recently registered one. -/
theorem register_overwrites_deterministically {Ctx Val : Type}
    (r : Router Ctx Val) (op q : String) (i1 o1 i2 o2 : Val)
    (h1 h2 : Ctx → Val → Except String Val) (hq : q ≠ op) :
    ((r.Register op i1 o1 h1).Register op i2 o2 h2).operationFuncs op = some h2 ∧
    ((r.Register op i1 o1 h1).Register op i2 o2 h2).inputTypes op = some i2 ∧
    ((r.Register op i1 o1 h1).Register op i2 o2 h2).outputTypes op = some o2 ∧
    ((r.Register op i1 o1 h1).Register op i2 o2 h2).operationFuncs q =
      r.operationFuncs q ∧
    ((r.Register op i1 o1 h1).Register op i2 o2 h2).inputTypes q =
      r.inputTypes q ∧
    ((r.Register op i1 o1 h1).Register op i2 o2 h2).outputTypes q =
      r.outputTypes q := by
  simp [Router.Register, hq]

/-- C6 witness: double registration under one concrete name, with a
distinct second name untouched. -/
theorem register_overwrites_deterministically_witness :
    (((Router.NewRouter Unit String).Register ("a") ("i1") ("o1") echoHandler).Register
        ("a") ("i2") ("o2") boomHandler).operationFuncs ("a") = some boomHandler ∧
    (((Router.NewRouter Unit String).Register ("a") ("i1") ("o1") echoHandler).Register
        ("a") ("i2") ("o2") boomHandler).inputTypes ("a") = some ("i2") ∧
    (((Router.NewRouter Unit String).Register ("a") ("i1") ("o1") echoHandler).Register
        ("a") ("i2") ("o2") boomHandler).outputTypes ("a") = some ("o2") ∧
    (((Router.NewRouter Unit String).Register ("a") ("i1") ("o1") echoHandler).Register
        ("a") ("i2") ("o2") boomHandler).operationFuncs ("b") =
      (Router.NewRouter Unit String).operationFuncs ("b") ∧
    (((Router.NewRouter Unit String).Register ("a") ("i1") ("o1") echoHandler).Register
        ("a") ("i2") ("o2") boomHandler).inputTypes ("b") =
      (Router.NewRouter Unit String).inputTypes ("b") ∧
    (((Router.NewRouter Unit String).Register ("a") ("i1") ("o1") echoHandler).Register
        ("a") ("i2") ("o2") boomHandler).outputTypes ("b") =
      (Router.NewRouter Unit String).outputTypes ("b") :=
  register_overwrites_deterministically (Router.NewRouter Unit String) ("a") ("b")
    ("i1") ("o1") ("i2") ("o2") echoHandler boomHandler (by decide)

/-- C7: every string HandleMessage emits is the serialization of an
outbound envelope with the request field absent and the response field
equal to the encoding of a value the handler returned successfully; in
particular no ErrorPayload shape is ever emitted, and failure results
carry no output string at all. -/
theorem success_output_is_handler_response_envelope {Ctx Val : Type}
    (w : Wire Val) (r : Router Ctx Val) (ctx : Ctx) (s out : String)
    (hok : Router.HandleMessage w r ctx s = .ok out) :
    ∃ msg fn inT x y yb,
      w.unmarshalMessage s = .ok msg ∧
      r.operationFuncs msg.procedure = some fn ∧
      r.inputTypes msg.procedure = some inT ∧
      w.protoUnmarshal msg.request inT = .ok x ∧
      fn ctx x = .ok y ∧
      w.protoMarshal y = .ok yb ∧
      w.marshalMessage
        { procedure := msg.procedure, request := none, response := some yb } =
        .ok out := by
  cases hu : w.unmarshalMessage s with
  | error e => simp [Router.HandleMessage, hu] at hok
  | ok msg =>
    cases hf : r.operationFuncs msg.procedure with
    | none => simp [Router.HandleMessage, hu, hf] at hok
    | some fn =>
      cases hi : r.inputTypes msg.procedure with
      | none => simp [Router.HandleMessage, hu, hf, hi] at hok
      | some inT =>
        cases hd : w.protoUnmarshal msg.request inT with
        | error e => simp [Router.HandleMessage, hu, hf, hi, hd] at hok
        | ok x =>
          cases hc : fn ctx x with
          | error e => simp [Router.HandleMessage, hu, hf, hi, hd, hc] at hok
          | ok y =>
            cases hm : w.protoMarshal y with
            | error e => simp [Router.HandleMessage, hu, hf, hi, hd, hc, hm] at hok
            | ok yb =>
              cases ho : w.marshalMessage
                  { procedure := msg.procedure, request := none,
                    response := some yb } with
              | error e =>
                simp [Router.HandleMessage, hu, hf, hi, hd, hc, hm, ho] at hok
              | ok out2 =>
                have hout : out2 = out := by
                  simp [Router.HandleMessage, hu, hf, hi, hd, hc, hm, ho] at hok
                  exact hok
                subst hout
                exact ⟨msg, fn, inT, x, y, yb, rfl, hf, hi, hd, hc, hm, ho⟩

/-- C7 witness: inverting the successful echo dispatch. -/
theorem success_output_is_handler_response_envelope_witness :
    ∃ msg fn inT x y yb,
      demoWire.unmarshalMessage demoEchoInput = .ok msg ∧
      demoRouter.operationFuncs msg.procedure = some fn ∧
      demoRouter.inputTypes msg.procedure = some inT ∧
      demoWire.protoUnmarshal msg.request inT = .ok x ∧
      fn () x = .ok y ∧
      demoWire.protoMarshal y = .ok yb ∧
      demoWire.marshalMessage
        { procedure := msg.procedure, request := none, response := some yb } =
        .ok ("\x7b\"procedure\":\"demo.Echo/Say\",\"response\":\x7b\"reply\":\"hello\"\x7d\x7d") :=
  success_output_is_handler_response_envelope demoWire demoRouter () demoEchoInput
    ("\x7b\"procedure\":\"demo.Echo/Say\",\"response\":\x7b\"reply\":\"hello\"\x7d\x7d")
    rfl

/-- C8: running any batch of HandleMessage calls one after another
against the shared router state, in the order given (so for every
interleaving of atomic calls, since each call is a single step here),
leaves the registry unchanged and gives every call exactly the result of
HandleMessage on the initial registry and that call's own input: no
cross-talk between calls. -/
theorem concurrent_calls_no_crosstalk {Ctx Val : Type} (w : Wire Val)
    (ctx : Ctx) (r : Router Ctx Val) (inputs : List String) :
    (Router.runCalls w ctx r inputs).2 =
      inputs.map (Router.HandleMessage w r ctx) ∧
    (Router.runCalls w ctx r inputs).1 = r := by
  induction inputs with
  | nil => exact ⟨rfl, rfl⟩
  | cons s rest ih =>
    refine ⟨?_, ?_⟩ <;>
      simp [Router.runCalls, handleMessageS_state, handleMessageS_fst, ih.1, ih.2]

/-- C9: HandleMessage never mutates the router: after the state-threaded
dispatch, the three registry maps are the ones the call started with,
whatever the input and outcome. -/
theorem handleMessage_preserves_registry {Ctx Val : Type} (w : Wire Val)
    (r : Router Ctx Val) (ctx : Ctx) (input : String) :
    ((Router.HandleMessageS w r ctx input).2).operationFuncs = r.operationFuncs ∧
    ((Router.HandleMessageS w r ctx input).2).inputTypes = r.inputTypes ∧
    ((Router.HandleMessageS w r ctx input).2).outputTypes = r.outputTypes := by
  rw [handleMessageS_state]
  exact ⟨rfl, rfl, rfl⟩

/-- C10: an envelope for a registered procedure with the request field
absent reaches the request-decode step with a nil payload; since the
protobuf JSON decoder rejects empty input (captured by the hypothesis on
the wire), HandleMessage fails with the request-unmarshal error, and the
result does not depend on the handler (arbitrary here), so the handler
is never invoked. -/
theorem absent_request_fails_decode {Ctx Val : Type} (w : Wire Val)
    (r : Router Ctx Val) (ctx : Ctx) (s op : String) (resp : Option String)
    (inT : Val) (h : Ctx → Val → Except String Val) (e : String)
    (hparse : w.unmarshalMessage s =
      .ok { procedure := op, request := none, response := resp })
    (hfn : r.operationFuncs op = some h)
    (hin : r.inputTypes op = some inT)
    (hnil : w.protoUnmarshal none inT = .error e) :
    Router.HandleMessage w r ctx s = .error (.unmarshalRequestErr e) := by
  simp [Router.HandleMessage, hparse, hfn, hin, hnil]

/-- C10 witness: an envelope naming the registered echo operation with
no request field. -/
theorem absent_request_fails_decode_witness :
    Router.HandleMessage demoWire demoRouter () demoNoRequestInput =
      .error (.unmarshalRequestErr ("unexpected EOF")) :=
  absent_request_fails_decode demoWire demoRouter () demoNoRequestInput
    ("demo.Echo/Say") none ("SayRequest") echoHandler ("unexpected EOF")
    rfl rfl rfl rfl

end GrantedRPC
